import Mathlib

/-!
Shallow embedding of the streaming transcription pipeline in
`src/scripts/voice_streaming.py` (the producer → queue → time-windowed
batch collector → dispatcher pipeline), together with theorems settling
the specification claims about it.

Modelling conventions:
- Timestamps are `Int` microseconds since the Unix epoch (UTC).  Python's
  `datetime` subtraction yields a `timedelta`; its `.seconds` attribute is
  the normalized seconds component `(delta_us // 10^6) % 86400` with
  floor division — embedded as `tdSeconds` below.
- `strftime("%Y-%m-%d %H:%M:%S")` is embedded as `strftimeYmdHms`, using
  the standard civil-from-days Gregorian conversion; clock readings are
  taken to be epoch-onward (non-negative).
- Each iteration of the `process_queue` while-loop is one poll cycle
  (`processCycle`): the `queue.get` result (`none` models the 0.1 s
  `asyncio.TimeoutError`), the clock readings of the cycle, and the
  outcome of the awaited HTTP post (`DispatchResult` models the
  `try/except` arms at lines 166-175 of the source: a response, an
  `asyncio.TimeoutError`, or an `aiohttp.ClientError`).
- A whole run of the loop (`runProcessQueue`) consumes the list of cycles
  executed while `shutdown_event` is unset; when the loop-top check sees
  the event set, the loop exits and only `click.echo("Queue processing
  complete")` runs, exactly as in the source.
-/

/-- Python `timedelta.seconds` of a duration of `d` microseconds:
the normalized seconds component, `(d // 10^6) % 86400` with floor
division (so e.g. `-500000 µs ↦ 86399`). -/
def tdSeconds (d : Int) : Int := (Int.fdiv d 1000000).emod 86400

/-- Zero-pad a natural number to two digits (for `%m %d %H %M %S`). -/
def pad2 (n : Nat) : String := if n < 10 then "0" ++ toString n else toString n

/-- Zero-pad a natural number to four digits (for `%Y`). -/
def pad4 (n : Nat) : String :=
  if n < 10 then "000" ++ toString n
  else if n < 100 then "00" ++ toString n
  else if n < 1000 then "0" ++ toString n
  else toString n

/-- Gregorian date (year, month, day) of day number `z` counted from
1970-01-01 (the standard civil-from-days algorithm, valid for the
epoch-onward day numbers that arise as clock readings here). -/
def civilFromDays (z : Nat) : Nat × Nat × Nat :=
  let zz := z + 719468
  let era := zz / 146097
  let doe := zz % 146097
  let yoe := (doe - doe / 1460 + doe / 36524 - doe / 146097) / 365
  let y := yoe + era * 400
  let doy := doe - (365 * yoe + yoe / 4 - yoe / 100)
  let mp := (5 * doy + 2) / 153
  let d := doy - (153 * mp + 2) / 5 + 1
  let m := if mp < 10 then mp + 3 else mp - 9
  (if m ≤ 2 then y + 1 else y, m, d)

/-- Embedding of `datetime.strftime("%Y-%m-%d %H:%M:%S")` for a clock
reading of `t` microseconds since the epoch (epoch-onward readings). -/
def strftimeYmdHms (t : Int) : String :=
  let us := t.toNat
  let s := us / 1000000
  let days := s / 86400
  let sod := s % 86400
  let ymd := civilFromDays days
  pad4 ymd.1 ++ "-" ++ pad2 ymd.2.1 ++ "-" ++ pad2 ymd.2.2 ++ " " ++
    pad2 (sod / 3600) ++ ":" ++ pad2 (sod % 3600 / 60) ++ ":" ++ pad2 (sod % 60)

/-- `SentenceChunk` dataclass: one buffered text fragment with the
`datetime.now(tz=timezone.utc)` reading taken when it was appended. -/
structure SentenceChunk where
  text : String
  created_at : Int
deriving Repr, BEq, DecidableEq, Inhabited

/-- `TranscriptCollector` state: the configured window threshold
(`batch_size`, seconds) and the ordered buffer `transcript_parts`. -/
structure TranscriptCollector where
  batch_size : Int
  transcript_parts : List SentenceChunk
deriving Repr, BEq, DecidableEq

/-- `TranscriptCollector.reset`: clear the buffer (lines 40-41). -/
def TranscriptCollector.reset (c : TranscriptCollector) : TranscriptCollector :=
  { c with transcript_parts := [] }

/-- `TranscriptCollector.add_part`: append a fragment stamped with the
current clock reading (lines 43-46). -/
def TranscriptCollector.add_part (c : TranscriptCollector) (part : String)
    (now : Int) : TranscriptCollector :=
  { c with transcript_parts :=
      c.transcript_parts ++ [{ text := part, created_at := now }] }

/-- `TranscriptCollector.length_check` (lines 48-54): true iff the buffer
is non-empty and `(now - transcript_parts[0].created_at).seconds >
batch_size` — Python `timedelta.seconds`, not total seconds. -/
def TranscriptCollector.length_check (c : TranscriptCollector) (now : Int) : Bool :=
  if c.transcript_parts.length ≥ 1 then
    decide (tdSeconds (now - (c.transcript_parts.headD default).created_at)
      > c.batch_size)
  else
    false

/-- `TranscriptCollector.get_full_transcript` (lines 56-70): join the
buffered texts with `"\n"`; for a non-empty buffer the returned pair is
`(end_time, start_time)` formatted from the LAST and FIRST fragments'
`created_at`; for an empty buffer both components are the current
(naive local) clock reading, formatted. -/
def TranscriptCollector.get_full_transcript (c : TranscriptCollector)
    (nowLocal : Int) : String × (String × String) :=
  let transcript_text := String.intercalate "\n" (c.transcript_parts.map (·.text))
  match c.transcript_parts with
  | [] =>
    let t := strftimeYmdHms nowLocal
    (transcript_text, (t, t))
  | p :: ps =>
    let end_time := strftimeYmdHms ((ps.getLastD p).created_at)
    let start_time := strftimeYmdHms p.created_at
    (transcript_text, (end_time, start_time))

/-- Producer boundary `on_message` (lines 93-101): the list of fragments
enqueued for one transcript event carrying `sentence`.  Python's
`if sentence:` is string truthiness, i.e. non-emptiness — whitespace-only
text passes the check and is enqueued. -/
def on_message (sentence : String) : List String :=
  if sentence = "" then [] else [sentence]

/-- Outcome of the awaited `session.post` of one flush, as discriminated
by the `try/except` arms at lines 166-175: a completed response with its
HTTP status, an `asyncio.TimeoutError`, or an `aiohttp.ClientError`
carrying its message. -/
inductive DispatchResult where
  | response (status : Nat)
  | timeoutError
  | clientError (msg : String)
deriving Repr, BEq, DecidableEq

/-- The log line printed for the dispatch outcome (lines 171-175). -/
def dispatchLog : DispatchResult → String
  | DispatchResult.response s =>
      if s = 200 then "Request successful: True" else "Request successful: False"
  | DispatchResult.timeoutError => "Request timed out after 1 second"
  | DispatchResult.clientError e => "An error occurred during the request: " ++ e

/-- Inputs consumed by one iteration of the `process_queue` while-loop:
`msg` is the `queue.get` result (`none` models the 0.1 s
`asyncio.TimeoutError` at line 157), `tGet` the clock reading used by
`add_part`, `tChk` the clock reading used by `length_check` and the
flush messages, and `disp` the outcome of the awaited post if a flush
fires this cycle. -/
structure CycleInput where
  msg : Option String
  tGet : Int
  tChk : Int
  disp : DispatchResult
deriving Repr, BEq, DecidableEq

/-- Lines 155-156: `if message: transcript_collector.add_part(message)` —
a dequeued message is appended iff it is non-empty (string truthiness). -/
def receiveMessage (c : TranscriptCollector) (m : String) (t : Int) :
    TranscriptCollector :=
  if m = "" then c else c.add_part m t

/-- Lines 153-158 of the loop body: receive from the queue (or pass on
the 0.1 s timeout) and append the message iff it is non-empty. -/
def addPhase (c : TranscriptCollector) (i : CycleInput) : TranscriptCollector :=
  match i.msg with
  | some m => receiveMessage c m i.tGet
  | none => c

/-- One emitted batch: the buffered fragments consumed by the flush and
the concatenated text posted as the form field `text`. -/
structure FlushRecord where
  parts : List SentenceChunk
  text : String
deriving Repr, BEq, DecidableEq

/-- The `click.echo` line printed when a flush fires (lines 161-163). -/
def processingLog (c1 : TranscriptCollector) (tChk : Int) : String :=
  "Processing queue from " ++
    strftimeYmdHms ((c1.transcript_parts.headD default).created_at) ++
    " to " ++ strftimeYmdHms tChk

/-- Result of one poll cycle: the collector afterwards, the batch flushed
this cycle (if any), and the lines printed this cycle. -/
structure CycleOutput where
  coll : TranscriptCollector
  flushed : Option FlushRecord
  logs : List String
deriving Repr, BEq, DecidableEq

/-- One iteration of the `process_queue` while-loop (lines 152-175):
receive/append, then evaluate `length_check`; on a flush, echo the
processing line, build the full transcript, `reset` the buffer, and
await the post, logging its outcome.  The `try/except` keeps a timeout
or client error inside the cycle, so the cycle always produces a
successor collector state. -/
def processCycle (c : TranscriptCollector) (i : CycleInput) : CycleOutput :=
  if (addPhase c i).length_check i.tChk then
    { coll := (addPhase c i).reset
      flushed := some { parts := (addPhase c i).transcript_parts
                        text := ((addPhase c i).get_full_transcript i.tChk).1 }
      logs := [processingLog (addPhase c i) i.tChk, dispatchLog i.disp] }
  else
    { coll := addPhase c i, flushed := none, logs := [] }

/-- Result of a whole run of `process_queue`: the collector when the
loop exits, the batches flushed in order, and all lines printed. -/
structure RunOutput where
  final : TranscriptCollector
  records : List FlushRecord
  logs : List String
deriving Repr, BEq, DecidableEq

/-- A whole run of the `process_queue` loop over the cycles executed
while `shutdown_event` was unset.  When the loop-top check (line 152)
sees the event set, the loop exits at once: no further flush happens,
any residual buffer is simply carried out in `final`, and only
`click.echo("Queue processing complete")` (line 177) runs. -/
def runProcessQueue (c : TranscriptCollector) : List CycleInput → RunOutput
  | [] => { final := c, records := [], logs := ["Queue processing complete"] }
  | i :: rest =>
    let o := processCycle c i
    let r := runProcessQueue o.coll rest
    { final := r.final, records := o.flushed.toList ++ r.records,
      logs := o.logs ++ r.logs }

/-- The fragments a cycle ingests into the buffer (empty unless a
non-empty message was dequeued this cycle). -/
def ingestedOne (i : CycleInput) : List SentenceChunk :=
  match i.msg with
  | some m => if m = "" then [] else [{ text := m, created_at := i.tGet }]
  | none => []

/-- The arrival-ordered sequence of fragments ingested over a run. -/
def ingested (inps : List CycleInput) : List SentenceChunk :=
  inps.flatMap ingestedOne

/-- A cycle's inputs with the dispatch outcome erased (what the cycle
looks like to everything except the post's own logging). -/
def eraseDisp (i : CycleInput) : Option String × Int × Int :=
  (i.msg, i.tGet, i.tChk)

/-- Lifecycle events of the shutdown path, in the order fixed by the
program text: inside `get_transcript`, after `shutdown_event.wait()`
returns, `microphone.finish()` (line 133) precedes
`dg_connection.finish()` (line 136); on an exception the handler at
lines 140-141 logs instead; either way the coroutine then returns and
its task completes.  In `main_async`, `await transcript_task` (line 197)
returns only on that completion, and only then does line 199 set the
collector's stop event, after which line 201 awaits the collector. -/
inductive LifecycleEv where
  | micFinish
  | connFinish
  | errorLogged
  | sourceDone
  | setShutdown
  | collectorDone
deriving Repr, BEq, DecidableEq

/-- Shutdown-path events of `get_transcript` (lines 130-141): stop the
microphone then close the connection, or log the caught exception. -/
def getTranscriptShutdownEvents (failed : Bool) : List LifecycleEv :=
  if failed then [LifecycleEv.errorLogged]
  else [LifecycleEv.micFinish, LifecycleEv.connFinish]

/-- Lifecycle trace of `main_async` (lines 180-201): the source task's
shutdown events, its completion, then `shutdown_event.set()`, then the
collector task's completion.  Collector poll cycles interleave with the
source task but the events listed here are ordered by `await`/program
order alone. -/
def mainAsyncEvents (failed : Bool) : List LifecycleEv :=
  getTranscriptShutdownEvents failed ++
    [LifecycleEv.sourceDone, LifecycleEv.setShutdown, LifecycleEv.collectorDone]

/-! Concrete states and cycle inputs used by closed theorems below
(a window of 5 seconds throughout, matching the spec's worked example). -/

/-- Collector with a 5 s window and an empty buffer. -/
def cEmpty : TranscriptCollector := { batch_size := 5, transcript_parts := [] }

/-- Collector with a 5 s window and one fragment received at t = 0. -/
def cHello : TranscriptCollector :=
  { batch_size := 5, transcript_parts := [{ text := "hello", created_at := 0 }] }

/-- Collector with fragments "hello" at t = 0 s and "world" at t = 2 s. -/
def cHelloWorld : TranscriptCollector :=
  { batch_size := 5,
    transcript_parts := [{ text := "hello", created_at := 0 },
      { text := "world", created_at := 2000000 }] }

/-- Cycle at t = 0 dequeuing "hello"; dispatch (if any) returns 200. -/
def iHello : CycleInput :=
  { msg := some "hello", tGet := 0, tChk := 0, disp := DispatchResult.response 200 }

/-- Empty poll at t = 7 s; dispatch (if any) returns 200. -/
def iPollOk : CycleInput :=
  { msg := none, tGet := 7000000, tChk := 7000000,
    disp := DispatchResult.response 200 }

/-- Empty poll at t = 7 s; dispatch (if any) hits the client timeout. -/
def iPollTimeout : CycleInput :=
  { msg := none, tGet := 7000000, tChk := 7000000,
    disp := DispatchResult.timeoutError }

/-! Helper lemmas. -/

/-- `length_check` unfolded: non-empty buffer and the Python
`timedelta.seconds` of the oldest fragment's age above the threshold. -/
theorem length_check_iff (c : TranscriptCollector) (now : Int) :
    c.length_check now = true ↔
      c.transcript_parts ≠ [] ∧
        tdSeconds (now - (c.transcript_parts.headD default).created_at)
          > c.batch_size := by
  rcases hp : c.transcript_parts with _ | ⟨p, ps⟩ <;>
    simp [TranscriptCollector.length_check, hp]

/-- The add phase appends exactly the cycle's ingested fragments. -/
theorem addPhase_parts (c : TranscriptCollector) (i : CycleInput) :
    (addPhase c i).transcript_parts = c.transcript_parts ++ ingestedOne i := by
  rcases hm : i.msg with _ | m <;>
    simp [addPhase, ingestedOne, hm, receiveMessage, TranscriptCollector.add_part]
  split <;> simp

/-- The add phase never changes the configured window threshold. -/
theorem addPhase_batch_size (c : TranscriptCollector) (i : CycleInput) :
    (addPhase c i).batch_size = c.batch_size := by
  rcases hm : i.msg with _ | m <;>
    simp [addPhase, hm, receiveMessage, TranscriptCollector.add_part]
  split <;> simp

/-- A cycle flushes exactly when `length_check` holds after the add phase. -/
theorem processCycle_flushed_isSome (c : TranscriptCollector) (i : CycleInput) :
    (processCycle c i).flushed.isSome = (addPhase c i).length_check i.tChk := by
  unfold processCycle
  split <;> simp_all

/-- One cycle preserves the partition: batch fragments plus the surviving
buffer equal the previous buffer plus the cycle's ingested fragments. -/
theorem processCycle_partition (c : TranscriptCollector) (i : CycleInput) :
    ((processCycle c i).flushed.toList.flatMap FlushRecord.parts)
        ++ (processCycle c i).coll.transcript_parts
      = c.transcript_parts ++ ingestedOne i := by
  unfold processCycle
  split
  · simp [TranscriptCollector.reset, addPhase_parts]
  · simp [addPhase_parts]

/-- Run-level partition: all flushed fragments plus the residual buffer
equal the initial buffer plus everything ingested, in order. -/
theorem runProcessQueue_partition (c : TranscriptCollector)
    (inps : List CycleInput) :
    ((runProcessQueue c inps).records.flatMap FlushRecord.parts)
        ++ (runProcessQueue c inps).final.transcript_parts
      = c.transcript_parts ++ ingested inps := by
  induction inps generalizing c with
  | nil => simp [runProcessQueue, ingested]
  | cons i rest ih =>
    have h1 := processCycle_partition c i
    have h2 := ih (processCycle c i).coll
    simp only [runProcessQueue, List.flatMap_append, List.append_assoc]
    rw [h2, ← List.append_assoc, h1, List.append_assoc]
    simp [ingested]

/-- Two cycles that agree except on the dispatch outcome produce the same
collector state and the same flushed batch. -/
theorem processCycle_eraseDisp (c : TranscriptCollector) (i j : CycleInput)
    (h : eraseDisp i = eraseDisp j) :
    (processCycle c i).coll = (processCycle c j).coll ∧
      (processCycle c i).flushed = (processCycle c j).flushed := by
  obtain ⟨m, g, k, d⟩ := i
  obtain ⟨m2, g2, k2, d2⟩ := j
  simp only [eraseDisp, Prod.mk.injEq] at h
  obtain ⟨h1, h2, h3⟩ := h
  subst h1
  subst h2
  subst h3
  have ha : addPhase c { msg := m, tGet := g, tChk := k, disp := d }
      = addPhase c { msg := m, tGet := g, tChk := k, disp := d2 } := rfl
  constructor <;> (unfold processCycle; rw [← ha]; split <;> rfl)

/-- Run-level dispatch isolation: dispatch outcomes never influence the
final collector state or the sequence of flushed batches. -/
theorem runProcessQueue_eraseDisp (c : TranscriptCollector)
    (inps inps2 : List CycleInput)
    (h : inps.map eraseDisp = inps2.map eraseDisp) :
    (runProcessQueue c inps).final = (runProcessQueue c inps2).final ∧
      (runProcessQueue c inps).records = (runProcessQueue c inps2).records := by
  induction inps generalizing c inps2 with
  | nil =>
    cases inps2 with
    | nil => exact ⟨rfl, rfl⟩
    | cons j rest2 => simp at h
  | cons i rest ih =>
    cases inps2 with
    | nil => simp at h
    | cons j rest2 =>
      simp only [List.map_cons, List.cons.injEq] at h
      obtain ⟨hc, hf⟩ := processCycle_eraseDisp c i j h.1
      have hr := ih (processCycle c i).coll rest2 h.2
      rw [hc] at hr
      simp only [runProcessQueue]
      rw [hc, hf, hr.1, hr.2]
      exact ⟨rfl, rfl⟩

/-! Claim theorems. -/

/-- Claim C1, counterexample.  With a 5-second window and one fragment
received at t = 0, a poll cycle at t = 5.5 s has a non-empty buffer whose
oldest fragment's age (5 500 000 µs) exceeds windowSeconds (5 s =
5 000 000 µs), yet no flush fires, because `length_check` compares the
Python `timedelta.seconds` component `floor(5.5) = 5`, and `5 > 5` is
false; likewise at age 86 402 s (one day + 2 s) the seconds component is
`86402 % 86400 = 2` and no flush fires, refuting "for every non-empty
buffer whose oldest fragment's age exceeds windowSeconds the flush fires
on that cycle". -/
theorem flush_trigger_counterexample :
    ((processCycle cHello
        { msg := none, tGet := 5500000, tChk := 5500000,
          disp := DispatchResult.response 200 }).flushed = none ∧
      cHello.transcript_parts ≠ [] ∧
      (5500000 : Int) - 0 > cHello.batch_size * 1000000) ∧
    ((processCycle cHello
        { msg := none, tGet := 86402000000, tChk := 86402000000,
          disp := DispatchResult.response 200 }).flushed = none ∧
      (86402000000 : Int) - 0 > cHello.batch_size * 1000000) := by decide

/-- Claim C1, amended: for every collector state and poll cycle, a flush
is triggered on that cycle if and only if the buffer (after the cycle's
receive step) is non-empty and the Python `timedelta.seconds` component
of the oldest fragment's age — `floor(age in µs / 10^6) mod 86400`, not
the true age — strictly exceeds the configured windowSeconds
(`batch_size`); in particular an empty buffer never flushes. -/
theorem flush_trigger_iff (c : TranscriptCollector) (i : CycleInput) :
    (processCycle c i).flushed.isSome = true ↔
      (addPhase c i).transcript_parts ≠ [] ∧
        tdSeconds (i.tChk -
            ((addPhase c i).transcript_parts.headD default).created_at)
          > c.batch_size := by
  rw [processCycle_flushed_isSome, length_check_iff, addPhase_batch_size]

/-- Claim C2: partition invariant.  First conjunct: over any run of the
collector loop, the concatenation of the fragments of all emitted
batches, in emission order, followed by the residual buffer, equals the
initial buffer followed by the arrival-ordered sequence of ingested
fragments — so no fragment is duplicated across two batches, none is
reordered, and every ingested fragment is in exactly one batch or the
residual buffer.  Second conjunct: each flush builds its batch from the
entire buffer in arrival order and clears the buffer in the same step. -/
theorem batch_partition_invariant :
    (∀ (c : TranscriptCollector) (inps : List CycleInput),
        ((runProcessQueue c inps).records.flatMap FlushRecord.parts)
            ++ (runProcessQueue c inps).final.transcript_parts
          = c.transcript_parts ++ ingested inps) ∧
    (∀ (c : TranscriptCollector) (i : CycleInput) (r : FlushRecord),
        (processCycle c i).flushed = some r →
          r.parts = (addPhase c i).transcript_parts ∧
            (processCycle c i).coll.transcript_parts = []) := by
  refine ⟨runProcessQueue_partition, ?_⟩
  intro c i r h
  by_cases hc : (addPhase c i).length_check i.tChk
  · unfold processCycle at h ⊢
    rw [if_pos hc] at h ⊢
    simp only [Option.some.injEq] at h
    subst h
    exact ⟨rfl, rfl⟩
  · unfold processCycle at h
    rw [if_neg hc] at h
    simp at h

/-- Claim C2, witness: a concrete two-cycle run ("hello" ingested at
t = 0, flush on the empty poll at t = 7 s) instantiating both conjuncts
of the partition invariant. -/
theorem batch_partition_invariant_witness :
    (((runProcessQueue cEmpty [iHello, iPollOk]).records.flatMap
          FlushRecord.parts)
        ++ (runProcessQueue cEmpty [iHello, iPollOk]).final.transcript_parts
      = cEmpty.transcript_parts ++ ingested [iHello, iPollOk]) ∧
    (({ parts := [{ text := "hello", created_at := 0 }],
        text := "hello" } : FlushRecord).parts
        = (addPhase cHello iPollOk).transcript_parts ∧
      (processCycle cHello iPollOk).coll.transcript_parts = []) :=
  ⟨batch_partition_invariant.1 cEmpty [iHello, iPollOk],
    batch_partition_invariant.2 cHello iPollOk
      { parts := [{ text := "hello", created_at := 0 }], text := "hello" }
      (by decide)⟩

/-- Claim C3, counterexample.  A run in which "hello" arrives at t = 0
and shutdown is observed at the next loop-top check: the buffer is
non-empty at shutdown, yet the run attempted no flush at all — the
collector loop exits immediately on the stop event (line 152/177) with
no predicate-independent final flush, and the fragment is dropped. -/
theorem shutdown_drain_counterexample :
    (runProcessQueue cEmpty [iHello]).final.transcript_parts ≠ [] ∧
      (runProcessQueue cEmpty [iHello]).records = [] := by decide

/-- Claim C3, amended: once the shutdown event is observed at the top of
the collector loop, the loop terminates with no further flush attempt of
any kind: whatever the buffer holds is carried out unflushed (dropped),
and only the completion message is printed. -/
theorem shutdown_no_final_flush (c : TranscriptCollector) :
    runProcessQueue c [] =
      { final := c, records := [],
        logs := ["Queue processing complete"] } := rfl

/-- Claim C4: dispatch isolation.  First conjunct: two runs whose cycles
agree on everything except the dispatch outcomes produce the same final
collector state and the same sequence of flushed batches — a timeout or
client error for batch N is caught inside the cycle, the batch is
dropped with no retry, and batch N+1 is still collected and attempted,
with buffering decisions unchanged.  Second conjunct: a failing dispatch
is logged within its cycle (the `except` arms at lines 172-175). -/
theorem dispatch_failure_isolated :
    (∀ (c : TranscriptCollector) (inps inps2 : List CycleInput),
        inps.map eraseDisp = inps2.map eraseDisp →
          (runProcessQueue c inps).final = (runProcessQueue c inps2).final ∧
            (runProcessQueue c inps).records
              = (runProcessQueue c inps2).records) ∧
    (∀ (c : TranscriptCollector) (i : CycleInput),
        (processCycle c i).flushed.isSome = true →
          ((i.disp = DispatchResult.timeoutError →
              "Request timed out after 1 second" ∈ (processCycle c i).logs) ∧
            (∀ e, i.disp = DispatchResult.clientError e →
              ("An error occurred during the request: " ++ e)
                ∈ (processCycle c i).logs))) := by
  refine ⟨runProcessQueue_eraseDisp, ?_⟩
  intro c i hf
  by_cases hc : (addPhase c i).length_check i.tChk
  · constructor
    · intro hd
      unfold processCycle
      rw [if_pos hc]
      simp [dispatchLog, hd]
    · intro e hd
      unfold processCycle
      rw [if_pos hc]
      simp [dispatchLog, hd]
  · rw [processCycle_flushed_isSome] at hf
    exact absurd hf hc

/-- Claim C4, witness: a concrete one-cycle run whose dispatch times out
against the same run succeeding, with the failure's log line. -/
theorem dispatch_failure_isolated_witness :
    ((runProcessQueue cHello [iPollTimeout]).final
        = (runProcessQueue cHello [iPollOk]).final ∧
      (runProcessQueue cHello [iPollTimeout]).records
        = (runProcessQueue cHello [iPollOk]).records) ∧
    "Request timed out after 1 second"
      ∈ (processCycle cHello iPollTimeout).logs :=
  ⟨dispatch_failure_isolated.1 cHello [iPollTimeout] [iPollOk] (by decide),
    (dispatch_failure_isolated.2 cHello iPollTimeout (by decide)).1 (by decide)⟩

/-- Claim C5, counterexample.  The claim says the collector hands the
batch to a detached task and does not await dispatch completion before
returning to polling.  In the source (lines 166-175) the post is awaited
inline: the cycle's own printed output depends on the dispatch outcome
(`Request successful: ...` vs the timeout message), which is only
possible because the collector blocks on the dispatch before its next
poll.  Concretely, the same flushing cycle with a 200 response and with
a timeout produces different cycle logs. -/
theorem dispatch_awaited_counterexample :
    (processCycle cHello iPollOk).logs
      ≠ (processCycle cHello iPollTimeout).logs := by decide

/-- Claim C5, amended: in every flush the collector performs the dispatch
inline within the loop body, awaiting its completion (a response, the
0.5 s client timeout, or a connection error) and logging the outcome in
the same poll cycle, before the next iteration; the surrounding
`try/except` confines failures to that cycle. -/
theorem dispatch_awaited_inline (c : TranscriptCollector) (i : CycleInput)
    (h : (processCycle c i).flushed.isSome = true) :
    dispatchLog i.disp ∈ (processCycle c i).logs := by
  by_cases hc : (addPhase c i).length_check i.tChk
  · unfold processCycle
    rw [if_pos hc]
    simp
  · rw [processCycle_flushed_isSome] at h
    exact absurd h hc

/-- Claim C5 (amended), witness: the timed-out dispatch's outcome line is
in its own cycle's output. -/
theorem dispatch_awaited_inline_witness :
    dispatchLog iPollTimeout.disp ∈ (processCycle cHello iPollTimeout).logs :=
  dispatch_awaited_inline cHello iPollTimeout (by decide)

/-- The worker of `String.intercalate` is a left fold interposing the
separator. -/
theorem intercalate_go_foldl (sep : String) (xs : List String) (acc : String) :
    String.intercalate.go acc sep xs
      = xs.foldl (fun a b => a ++ sep ++ b) acc := by
  induction xs generalizing acc with
  | nil => rfl
  | cons x xs ih =>
    simp only [String.intercalate.go, List.foldl]
    exact ih (acc ++ sep ++ x)

/-- Claim C6: for every non-empty buffer the flushed transcript text is
the buffered fragments' texts joined in arrival order separated by
`"\n"` (left fold appending `"\n" ++ text` for each later fragment);
in particular "hello" then "world" yield `"hello\nworld"`, and a single
buffered fragment yields exactly its own text. -/
theorem transcript_text_join :
    (∀ (bs : Int) (p : SentenceChunk) (ps : List SentenceChunk) (now : Int),
        (TranscriptCollector.get_full_transcript
            { batch_size := bs, transcript_parts := p :: ps } now).1
          = ps.foldl (fun acc q => acc ++ "\n" ++ q.text) p.text) ∧
    (TranscriptCollector.get_full_transcript cHelloWorld 6000000).1
      = "hello\nworld" ∧
    (TranscriptCollector.get_full_transcript cHello 0).1 = "hello" := by
  refine ⟨?_, by decide, by decide⟩
  intro bs p ps now
  show String.intercalate "\n" ((p :: ps).map (·.text)) = _
  rw [List.map_cons, String.intercalate, intercalate_go_foldl, List.foldl_map]

/-- Claim C7, counterexample.  Fragments "hello" (t = 0 s) and "world"
(t = 2 s) flushed at t = 6 s: the claim says the pair is
(windowStart, windowEnd) with windowStart the first fragment's
timestamp and windowEnd ≈ the flush time; in fact the first component
of the returned pair is neither of these — the code returns
`(end_time, start_time)` with `end_time` the LAST fragment's arrival
time ("…00:00:02"), not the flush time ("…00:00:06"). -/
theorem window_pair_counterexample :
    (TranscriptCollector.get_full_transcript cHelloWorld 6000000).2.1
        ≠ strftimeYmdHms 0 ∧
      (TranscriptCollector.get_full_transcript cHelloWorld 6000000).2.1
        ≠ strftimeYmdHms 6000000 ∧
      (TranscriptCollector.get_full_transcript cHelloWorld 6000000).2
        = (strftimeYmdHms 2000000, strftimeYmdHms 0) := by decide

/-- Claim C7, amended: for every non-empty buffer the constructed batch
carries the pair `(end_time, start_time)` — in that order — where
`end_time` is the LAST buffered fragment's `created_at` and
`start_time` the first's, both formatted `"%Y-%m-%d %H:%M:%S"`; the
result does not depend on the flush time at all. -/
theorem batch_window_pair (bs : Int) (p : SentenceChunk)
    (ps : List SentenceChunk) (nowA nowB : Int) :
    (TranscriptCollector.get_full_transcript
          { batch_size := bs, transcript_parts := p :: ps } nowA).2
        = (strftimeYmdHms ((ps.getLastD p).created_at),
            strftimeYmdHms p.created_at) ∧
      TranscriptCollector.get_full_transcript
          { batch_size := bs, transcript_parts := p :: ps } nowA
        = TranscriptCollector.get_full_transcript
            { batch_size := bs, transcript_parts := p :: ps } nowB :=
  ⟨rfl, rfl⟩

/-- Claim C8, counterexample.  The whitespace-only sentence `" "` is
blank but non-empty; Python's `if sentence:` checks only emptiness, so
the producer enqueues it — refuting "enqueued iff neither empty nor
blank". -/
theorem blank_fragment_enqueued_counterexample :
    on_message " " = [" "] ∧ " " ≠ "" ∧
      (" ").data.all Char.isWhitespace = true := by decide

/-- Claim C8, amended: a text event's fragment passes the producer
boundary iff its text is non-empty (whitespace-only texts included),
and the collector's own `if message:` check agrees: feeding everything
the producer enqueues for one event through the receive step appends
exactly the non-empty text, stamped with the receive-time clock. -/
theorem enqueue_nonempty_only (s : String) (c : TranscriptCollector)
    (t : Int) :
    ((on_message s).foldl (fun cc m => receiveMessage cc m t)
        c).transcript_parts
      = c.transcript_parts ++
          (if s = "" then [] else [{ text := s, created_at := t }]) := by
  by_cases h : s = "" <;>
    simp [on_message, h, receiveMessage, TranscriptCollector.add_part]

/-- Claim C9: shutdown ordering.  In the lifecycle trace of `main_async`
the source task's completion strictly precedes setting the collector's
stop event (which in turn precedes the collector's completion), for both
the normal and the exception path of `get_transcript`; and on the normal
path the microphone is stopped, then the connection closed, before the
source task completes.  The collector is never signalled to stop before
the source task finishes. -/
theorem shutdown_ordering :
    (∀ failed : Bool,
        (mainAsyncEvents failed).indexOf LifecycleEv.sourceDone
            < (mainAsyncEvents failed).indexOf LifecycleEv.setShutdown ∧
          (mainAsyncEvents failed).indexOf LifecycleEv.setShutdown
            < (mainAsyncEvents failed).indexOf LifecycleEv.collectorDone) ∧
    ((mainAsyncEvents false).indexOf LifecycleEv.micFinish
        < (mainAsyncEvents false).indexOf LifecycleEv.connFinish ∧
      (mainAsyncEvents false).indexOf LifecycleEv.connFinish
        < (mainAsyncEvents false).indexOf LifecycleEv.sourceDone) := by decide

/-- Claim C10: `get_full_transcript` is total on the empty buffer — it
returns the empty string as the transcript and the current clock
reading, formatted, as both window timestamps, for every threshold and
every clock reading. -/
theorem get_full_transcript_empty_total (bs now : Int) :
    TranscriptCollector.get_full_transcript
        { batch_size := bs, transcript_parts := [] } now
      = ("", (strftimeYmdHms now, strftimeYmdHms now)) := rfl
